import Mathlib

/-!
Verification of the retry/backoff and circuit-breaker subsystem of
src/services/zep_graphiti/utils/enhanced_retry.py, shallowly embedded in Lean.
Delays and wall-clock times are modelled as rationals; the random jitter draw
(the Python expression 2 * random.random() - 1) is passed as an explicit
parameter; the per-invocation outcome of the caller-supplied async operation
is modelled as a function from the invocation index to a step result.
-/

/-- Error categories, mirroring class ErrorCategory. -/
inductive ErrorCategory where
  | NETWORK
  | TIMEOUT
  | RATE_LIMIT
  | AUTH
  | SERVER_ERROR
  | CLIENT_ERROR
  | EMBEDDING
  | DATABASE
  | UNKNOWN
deriving DecidableEq, BEq, Repr

/-- Circuit breaker states, mirroring class CircuitState. -/
inductive CircuitState where
  | CLOSED
  | OPEN
  | HALF_OPEN
deriving DecidableEq, Repr

/-- A Python exception as seen by categorize_error: its str() message and the
name of its runtime type.  RetryableError instances additionally carry a
category, a retryable flag and the wrapped original message (None for plain
exceptions). -/
structure PyErr where
  msg : List Char
  tyName : List Char
  category : Option ErrorCategory := none
  retryable : Bool := true
deriving DecidableEq, Repr

/-- Boolean test that the first list is a leading segment of the second. -/
def isPre : List Char → List Char → Bool
  | [], _ => true
  | _ :: _, [] => false
  | a :: as, b :: bs => a == b && isPre as bs

/-- Boolean substring containment, the semantics of the Python expression
term in error_str. -/
def hasSub (n : List Char) : List Char → Bool
  | [] => isPre n []
  | b :: bs => isPre n (b :: bs) || hasSub n bs

/-- ASCII lower-casing of a character list, the semantics of str.lower for
the ASCII messages this module deals with. -/
def lowerL (s : List Char) : List Char := s.map Char.toLower

/-- The semantics of any(term in s for term in terms). -/
def containsAny (s : List Char) (terms : List (List Char)) : Bool :=
  terms.any (fun t => hasSub t s)

/-- Network keyword list from categorize_error. -/
def networkTerms : List (List Char) :=
  [("connection".data), ("network".data), ("dns".data), ("resolve".data)]

/-- Timeout keyword list from categorize_error. -/
def timeoutTerms : List (List Char) :=
  [("timeout".data), ("timed out".data), ("read timeout".data)]

/-- Rate-limit keyword list from categorize_error. -/
def rateLimitTerms : List (List Char) :=
  [("rate limit".data), ("too many requests".data), ("429".data)]

/-- Authentication keyword list from categorize_error. -/
def authTerms : List (List Char) :=
  [("unauthorized".data), ("authentication".data), ("401".data), ("403".data)]

/-- Server-error keyword list from categorize_error. -/
def serverErrorTerms : List (List Char) :=
  [("server error".data), ("internal server".data), ("502".data), ("503".data), ("504".data)]

/-- Client-error keyword list from categorize_error. -/
def clientErrorTerms : List (List Char) :=
  [("bad request".data), ("not found".data), ("400".data), ("404".data)]

/-- Embedding keyword list from categorize_error. -/
def embeddingTerms : List (List Char) :=
  [("embedding".data), ("model".data), ("openai".data)]

/-- Database keyword list from categorize_error. -/
def databaseTerms : List (List Char) :=
  [("neo4j".data), ("database".data), ("bolt".data), ("cypher".data)]

/-- Error classification, mirroring categorize_error: keyword groups are
tried in source order against the lower-cased message, then the runtime type
name is checked for httpx/aiohttp, else UNKNOWN. -/
def categorize_error (e : PyErr) : ErrorCategory :=
  let s := lowerL e.msg
  let t := lowerL e.tyName
  if containsAny s networkTerms then .NETWORK
  else if containsAny s timeoutTerms then .TIMEOUT
  else if containsAny s rateLimitTerms then .RATE_LIMIT
  else if containsAny s authTerms then .AUTH
  else if containsAny s serverErrorTerms then .SERVER_ERROR
  else if containsAny s clientErrorTerms then .CLIENT_ERROR
  else if containsAny s embeddingTerms then .EMBEDDING
  else if containsAny s databaseTerms then .DATABASE
  else if hasSub ("httpx".data) t || hasSub ("aiohttp".data) t then .NETWORK
  else .UNKNOWN

/-- The ordered priority table of (keyword group, category) pairs, written
from the specification text for the refinement proof of the classifier. -/
def keywordTable : List (List (List Char) × ErrorCategory) :=
  [(networkTerms, .NETWORK), (timeoutTerms, .TIMEOUT), (rateLimitTerms, .RATE_LIMIT),
   (authTerms, .AUTH), (serverErrorTerms, .SERVER_ERROR), (clientErrorTerms, .CLIENT_ERROR),
   (embeddingTerms, .EMBEDDING), (databaseTerms, .DATABASE)]

/-- First keyword group (in priority order) matching the message. -/
def firstMatch (s : List Char) : List (List (List Char) × ErrorCategory) → Option ErrorCategory
  | [] => none
  | (terms, c) :: rest => if containsAny s terms then some c else firstMatch s rest

/-- Classifier written from the specification words: first matching keyword
group in the fixed priority order wins, then the type-name groups, else
unknown. -/
def categorizeSpec (e : PyErr) : ErrorCategory :=
  (firstMatch (lowerL e.msg) keywordTable).getD
    (if hasSub ("httpx".data) (lowerL e.tyName) || hasSub ("aiohttp".data) (lowerL e.tyName)
      then .NETWORK else .UNKNOWN)

/-- Retry configuration, mirroring dataclass RetryConfig after __post_init__.
The two optional dict fields are association lists; an empty list plays the
role of a falsy (None or empty) dict. -/
structure RetryConfig where
  max_retries : ℕ := 3
  base_delay : ℚ := 1
  max_delay : ℚ := 60
  backoff_multiplier : ℚ := 2
  jitter : Bool := true
  jitter_range : ℚ := 1/4
  category_retries : List (ErrorCategory × ℕ) := []
  category_delays : List (ErrorCategory × ℚ) := []
deriving DecidableEq, Repr

/-- The default category retry counts installed by RetryConfig.__post_init__. -/
def defaultCategoryRetries : List (ErrorCategory × ℕ) :=
  [(.NETWORK, 5), (.TIMEOUT, 3), (.RATE_LIMIT, 2), (.AUTH, 0), (.SERVER_ERROR, 3),
   (.CLIENT_ERROR, 0), (.EMBEDDING, 4), (.DATABASE, 3), (.UNKNOWN, 2)]

/-- The default category base delays installed by RetryConfig.__post_init__. -/
def defaultCategoryDelays : List (ErrorCategory × ℚ) :=
  [(.NETWORK, 1), (.TIMEOUT, 2), (.RATE_LIMIT, 5), (.AUTH, 0), (.SERVER_ERROR, 2),
   (.CLIENT_ERROR, 0), (.EMBEDDING, 3/2), (.DATABASE, 3), (.UNKNOWN, 2)]

/-- RetryConfig() with every default applied. -/
def defaultRetryConfig : RetryConfig :=
  { category_retries := defaultCategoryRetries, category_delays := defaultCategoryDelays }

/-- The effective retry budget for a category, mirroring the lookup in
retry_with_backoff: config.category_retries.get(category, config.max_retries)
when the dict is truthy, else config.max_retries. -/
def effectiveRetries (cfg : RetryConfig) (c : ErrorCategory) : ℕ :=
  if cfg.category_retries = [] then cfg.max_retries
  else (List.lookup c cfg.category_retries).getD cfg.max_retries

/-- The effective base delay for a category, mirroring the first lines of
calculate_delay. -/
def effBase (cfg : RetryConfig) (c : ErrorCategory) : ℚ :=
  if cfg.category_delays = [] then cfg.base_delay
  else (List.lookup c cfg.category_delays).getD cfg.base_delay

/-- The capped pre-jitter delay of calculate_delay:
min(base * multiplier ** attempt, max_delay). -/
def rawDelay (attempt : ℕ) (cfg : RetryConfig) (c : ErrorCategory) : ℚ :=
  min (effBase cfg c * cfg.backoff_multiplier ^ attempt) cfg.max_delay

/-- Delay computation, mirroring calculate_delay.  The parameter j stands for
the random draw 2 * random.random() - 1, a value in the interval from -1 to 1. -/
def calculate_delay (attempt : ℕ) (cfg : RetryConfig) (c : ErrorCategory) (j : ℚ) : ℚ :=
  let d := rawDelay attempt cfg c
  if cfg.jitter = true ∧ 0 < d then max (1/10) (d + d * cfg.jitter_range * j) else d

/-- The policy invariant stated by the specification: all delay values are
nonnegative, max_delay dominates base_delay, and jitter_range lies in [0,1]. -/
def policyInv (cfg : RetryConfig) : Prop :=
  0 ≤ cfg.base_delay ∧ 0 ≤ cfg.max_delay ∧ cfg.base_delay ≤ cfg.max_delay ∧
  (∀ p ∈ cfg.category_delays, 0 ≤ p.2) ∧ 0 ≤ cfg.jitter_range ∧ cfg.jitter_range ≤ 1

instance (cfg : RetryConfig) : Decidable (policyInv cfg) := by
  unfold policyInv
  have : Decidable (∀ p ∈ cfg.category_delays, 0 ≤ p.2) := List.decidableBAll _ _
  infer_instance

/-- Circuit breaker configuration, mirroring dataclass CircuitBreakerConfig. -/
structure CircuitBreakerConfig where
  failure_threshold : ℕ := 5
  timeout : ℚ := 60
  reset_timeout : ℚ := 300
  half_open_max_calls : ℕ := 3
deriving DecidableEq, Repr

/-- The mutable observable state of a CircuitBreaker instance. -/
structure CircuitBreaker where
  state : CircuitState := .CLOSED
  failure_count : ℕ := 0
  last_failure_time : ℚ := 0
  success_count : ℕ := 0
deriving DecidableEq, Repr

/-- The ASCII apostrophe used in the breaker rejection messages. -/
def quoteChar : Char := Char.ofNat 39

/-- The message of the fast-fail error a breaker raises while OPEN. -/
def openMsg (name : List Char) : List Char :=
  ("Circuit breaker ".data) ++ [quoteChar] ++ name ++ [quoteChar] ++ (" is OPEN".data)

/-- The message of the fast-fail error a breaker raises when the half-open
probe budget is already used. -/
def halfOpenMsg (name : List Char) : List Char :=
  ("Circuit breaker ".data) ++ [quoteChar] ++ name ++ [quoteChar] ++ (" is testing (HALF_OPEN)".data)

/-- The RetryableError a breaker raises when it rejects a call: category
UNKNOWN and retryable False, per CircuitBreaker.call. -/
def rejectionError (name : List Char) (st : CircuitState) : PyErr :=
  { msg := if st = .OPEN then openMsg name else halfOpenMsg name,
    tyName := ("RetryableError".data),
    category := some .UNKNOWN, retryable := false }

/-- Outcome of one invocation of the caller-supplied operation. -/
inductive StepResult (α : Type) where
  | ok (a : α)
  | fail (e : PyErr)
deriving DecidableEq, Repr

/-- The locked admission section at the top of CircuitBreaker.call: decides
whether the underlying operation runs and applies the OPEN to HALF_OPEN
transition.  Returns the admission flag and the state after the section. -/
def cbAdmit (cfg : CircuitBreakerConfig) (cb : CircuitBreaker) (now : ℚ) :
    Bool × CircuitBreaker :=
  match cb.state with
  | .OPEN =>
      if now - cb.last_failure_time < cfg.timeout then (false, cb)
      else (true, { cb with state := .HALF_OPEN, success_count := 0 })
  | .HALF_OPEN =>
      if cfg.half_open_max_calls ≤ cb.success_count then (false, cb) else (true, cb)
  | .CLOSED => (true, cb)

/-- CircuitBreaker._on_success. -/
def cbOnSuccess (cfg : CircuitBreakerConfig) (cb : CircuitBreaker) : CircuitBreaker :=
  match cb.state with
  | .HALF_OPEN =>
      let sc := cb.success_count + 1
      if cfg.half_open_max_calls ≤ sc then
        { cb with state := .CLOSED, failure_count := 0, success_count := sc }
      else { cb with success_count := sc }
  | .CLOSED => { cb with failure_count := cb.failure_count - 1 }
  | .OPEN => cb

/-- CircuitBreaker._on_failure; now is the time.time() read inside it. -/
def cbOnFailure (cfg : CircuitBreakerConfig) (cb : CircuitBreaker) (now : ℚ) : CircuitBreaker :=
  let cb2 := { cb with failure_count := cb.failure_count + 1, last_failure_time := now }
  if cb2.state = .CLOSED ∧ cfg.failure_threshold ≤ cb2.failure_count then
    { cb2 with state := .OPEN }
  else if cb2.state = .HALF_OPEN then { cb2 with state := .OPEN }
  else cb2

/-- Result of one CircuitBreaker.call: the value or error surfaced to the
caller, whether the underlying operation was invoked, and the new state. -/
structure CBCallResult (α : Type) where
  result : Except PyErr α
  invoked : Bool
  cb : CircuitBreaker
deriving Repr

/-- CircuitBreaker.call for one call arriving at time now whose underlying
operation, if invoked, produces res. -/
def cbCall (cfg : CircuitBreakerConfig) (name : List Char) (cb : CircuitBreaker)
    (now : ℚ) (res : StepResult α) : CBCallResult α :=
  let ad := cbAdmit cfg cb now
  if ad.1 then
    match res with
    | .ok a => ⟨.ok a, true, cbOnSuccess cfg ad.2⟩
    | .fail e => ⟨.error e, true, cbOnFailure cfg ad.2 now⟩
  else
    ⟨.error (rejectionError name cb.state), false, ad.2⟩

/-- Fold a run of failing calls over a breaker; each step carries the arrival
time of the call and the error its underlying operation raises. -/
def runFailures (cfg : CircuitBreakerConfig) (name : List Char)
    (cb : CircuitBreaker) (steps : List (ℚ × PyErr)) : CircuitBreaker :=
  steps.foldl (fun s p => (cbCall (α := Unit) cfg name s p.1 (.fail p.2)).cb) cb

/-- Fold a run of successful calls over a breaker; each step carries the
arrival time of the call and the value its underlying operation returns. -/
def runProbes {α : Type} (cfg : CircuitBreakerConfig) (name : List Char)
    (cb : CircuitBreaker) (steps : List (ℚ × α)) : CircuitBreaker :=
  steps.foldl (fun s p => (cbCall cfg name s p.1 (.ok p.2)).cb) cb

/-- The terminal RetryableError raised by retry_with_backoff once retries are
exhausted: it carries the last category, wraps the last underlying error, and
its message reports config.max_retries. -/
structure TermErr where
  category : ErrorCategory
  lastError : Option PyErr
  reportedRetries : ℕ
deriving DecidableEq, Repr

/-- What one top-level retry_with_backoff call did: its outcome, how many
times the operation (or the breaker) was invoked, the slept delays in order,
and the single record_call update (success flag, retries argument, category)
it issued to the global metrics. -/
structure RunResult (α : Type) where
  result : Except TermErr α
  invocations : ℕ
  sleeps : List ℚ
  recSuccess : Bool
  recRetries : ℕ
  recCategory : ErrorCategory
deriving Repr

/-- The attempt loop of retry_with_backoff.  fuel is the number of loop
iterations left (max_retries + 1 - attempt), ops gives the outcome of each
invocation, js the jitter draw consumed at each attempt, sleeps the delays
slept so far in reverse, inv the invocations so far. -/
def retryAux (cfg : RetryConfig) (ops : ℕ → StepResult α) (js : ℕ → ℚ) :
    ℕ → ℕ → Option PyErr → ErrorCategory → List ℚ → ℕ → RunResult α
  | 0, _, lastErr, cat, sleeps, inv =>
      ⟨.error ⟨cat, lastErr, cfg.max_retries⟩, inv, sleeps.reverse, false, cfg.max_retries, cat⟩
  | fuel + 1, attempt, _lastErr, cat, sleeps, inv =>
      match ops attempt with
      | .ok a => ⟨.ok a, inv + 1, sleeps.reverse, true, attempt, cat⟩
      | .fail e =>
          let c := categorize_error e
          if effectiveRetries cfg c ≤ attempt then
            ⟨.error ⟨c, some e, cfg.max_retries⟩, inv + 1, sleeps.reverse, false, cfg.max_retries, c⟩
          else
            let d := calculate_delay attempt cfg c (js attempt)
            retryAux cfg ops js fuel (attempt + 1) (some e) c
              (if 0 < d then d :: sleeps else sleeps) (inv + 1)

/-- retry_with_backoff without a circuit breaker: the loop runs for attempt
in range(max_retries + 1) starting from a fresh state. -/
def retry_with_backoff (cfg : RetryConfig) (ops : ℕ → StepResult α) (js : ℕ → ℚ) :
    RunResult α :=
  retryAux cfg ops js (cfg.max_retries + 1) 0 none .UNKNOWN [] 0

/-- Per-category counters held in RetryMetrics.category_stats:
calls, failures, retries. -/
structure CatStat where
  calls : ℕ := 0
  failures : ℕ := 0
  retries : ℕ := 0
deriving DecidableEq, Repr

/-- The global metrics aggregator, mirroring class RetryMetrics. -/
structure RetryMetrics where
  total_calls : ℕ := 0
  total_retries : ℕ := 0
  success_count : ℕ := 0
  failure_count : ℕ := 0
  category_stats : List (ErrorCategory × CatStat) := []
  response_times : List ℚ := []
deriving DecidableEq, Repr

/-- Replace (or insert) the association for c. -/
def setStat (stats : List (ErrorCategory × CatStat)) (c : ErrorCategory) (v : CatStat) :
    List (ErrorCategory × CatStat) :=
  if (List.lookup c stats).isSome then
    stats.map (fun p => if p.1 = c then (c, v) else p)
  else stats ++ [(c, v)]

/-- RetryMetrics.record_call. -/
def RetryMetrics.record_call (m : RetryMetrics) (success : Bool) (retries : ℕ)
    (response_time : ℚ) (category : Option ErrorCategory) : RetryMetrics :=
  let m1 : RetryMetrics :=
    { m with total_calls := m.total_calls + 1, total_retries := m.total_retries + retries,
             response_times := m.response_times ++ [response_time],
             success_count := if success then m.success_count + 1 else m.success_count,
             failure_count := if success then m.failure_count else m.failure_count + 1 }
  let m2 : RetryMetrics :=
    match category with
    | none => m1
    | some c =>
        let cur := (List.lookup c m1.category_stats).getD {}
        let cur2 : CatStat :=
          { calls := cur.calls + 1, retries := cur.retries + retries,
            failures := if success then cur.failures else cur.failures + 1 }
        { m1 with category_stats := setStat m1.category_stats c cur2 }
  if 1000 < m2.response_times.length then
    { m2 with response_times := m2.response_times.drop (m2.response_times.length - 500) }
  else m2

/-- Apply the single record_call update of one retry_with_backoff run, with
rt the measured wall-clock elapsed time of that run. -/
def applyRun (m : RetryMetrics) (r : RunResult α) (rt : ℚ) : RetryMetrics :=
  m.record_call r.recSuccess r.recRetries rt (some r.recCategory)

/-- Insertion sort used to model sorted(response_times). -/
def insQ (x : ℚ) : List ℚ → List ℚ
  | [] => [x]
  | y :: ys => if x ≤ y then x :: y :: ys else y :: insQ x ys

/-- Sorting for the percentile computation of get_summary. -/
def sortQ : List ℚ → List ℚ
  | [] => []
  | x :: xs => insQ x (sortQ xs)

/-- The data part of RetryMetrics.get_summary. -/
structure SummaryData where
  total_calls : ℕ
  success_rate : ℚ
  avg_retries : ℚ
  avg_response_time : ℚ
  p95_response_time : ℚ
  p99_response_time : ℚ
deriving DecidableEq, Repr

/-- RetryMetrics.get_summary: none models the no_data dictionary returned
when no response times were recorded. -/
def RetryMetrics.get_summary (m : RetryMetrics) : Option SummaryData :=
  if m.response_times = [] then none
  else
    let st := sortQ m.response_times
    let p95 := st.length * 95 / 100
    let p99 := st.length * 99 / 100
    some { total_calls := m.total_calls,
           success_rate := if 0 < m.total_calls then (m.success_count : ℚ) / m.total_calls else 0,
           avg_retries := if 0 < m.total_calls then (m.total_retries : ℚ) / m.total_calls else 0,
           avg_response_time := m.response_times.sum / m.response_times.length,
           p95_response_time := (st.get? p95).getD 0,
           p99_response_time := (st.get? p99).getD 0 }

/-- A network-flavoured error: its message contains the word connection. -/
def netError : PyErr := { msg := ("connection reset by peer".data), tyName := ("OSError".data) }

/-- An authentication error: 401 Unauthorized. -/
def authError : PyErr := { msg := ("401 Unauthorized".data), tyName := ("Exception".data) }

/-- A client error: 404 Not Found. -/
def notFoundError : PyErr := { msg := ("404 Not Found".data), tyName := ("Exception".data) }

/-- An error matched by no keyword group. -/
def oddError : PyErr := { msg := ("weird failure".data), tyName := ("Exception".data) }

/-- The fast-fail error raised by an OPEN breaker named embedder. -/
def cbRejectErr : PyErr := rejectionError ("embedder".data) .OPEN

/-- A zero jitter draw at every attempt. -/
def js0 : ℕ → ℚ := fun _ => 0

/-- Default configuration with max_retries lowered to 1; the NETWORK category
override (5) then exceeds max_retries. -/
def cfgC2 : RetryConfig := { defaultRetryConfig with max_retries := 1 }

/-- A policy with a negative backoff multiplier; every delay field is
nonnegative, so the specification invariant holds. -/
def cfgNegMult : RetryConfig :=
  { max_retries := 3, base_delay := 1, max_delay := 60, backoff_multiplier := -2,
    jitter := false, jitter_range := 1/4 }

/-- A policy with multiplier one half and jitter disabled. -/
def cfgHalf : RetryConfig :=
  { max_retries := 3, base_delay := 1, max_delay := 60, backoff_multiplier := 1/2,
    jitter := false, jitter_range := 1/4 }

/-- A policy whose raw delay is already capped at attempt 0, jitter enabled. -/
def cfgCap : RetryConfig :=
  { max_retries := 3, base_delay := 1, max_delay := 1, backoff_multiplier := 2,
    jitter := true, jitter_range := 1/4 }

/-- A policy with multiplier zero and jitter enabled. -/
def cfgZeroMult : RetryConfig :=
  { max_retries := 3, base_delay := 1, max_delay := 60, backoff_multiplier := 0,
    jitter := true, jitter_range := 1/4 }


/-- The default circuit breaker configuration. -/
def defaultCBConfig : CircuitBreakerConfig := {}

/-- A breaker that has just opened: its last failure happened at time 10. -/
def openCB : CircuitBreaker :=
  { state := .OPEN, failure_count := 5, last_failure_time := 10, success_count := 0 }

/-- Default configuration with jitter disabled. -/
def cfgNoJit : RetryConfig := { defaultRetryConfig with jitter := false }

/-- A run whose operation succeeds at the first attempt. -/
def runOk : RunResult Unit := retry_with_backoff defaultRetryConfig (fun _ => .ok ()) js0

/-- A run whose operation always raises 401 Unauthorized: the AUTH budget is
0, so it fails and is exhausted with no retries. -/
def runAuthFail : RunResult Unit :=
  retry_with_backoff defaultRetryConfig (fun _ => .fail authError) js0

/-- The metrics aggregator after recording the two runs above. -/
def twoCallMetrics : RetryMetrics :=
  [runOk, runAuthFail].foldl (fun m r => applyRun m r ((fun _ => (0 : ℚ)) r)) {}

/-- A metrics aggregator holding one recorded call. -/
def oneCallMetrics : RetryMetrics := RetryMetrics.record_call {} true 0 0 (some .NETWORK)

theorem cbCall_closed_fail {α : Type} (cfg : CircuitBreakerConfig) (name : List Char)
    (cb : CircuitBreaker) (now : ℚ) (e : PyErr) (h : cb.state = .CLOSED) :
    cbCall (α := α) cfg name cb now (.fail e) = ⟨.error e, true, cbOnFailure cfg cb now⟩ := by
  simp [cbCall, cbAdmit, h]

theorem cbCall_closed_ok {α : Type} (cfg : CircuitBreakerConfig) (name : List Char)
    (cb : CircuitBreaker) (now : ℚ) (v : α) (h : cb.state = .CLOSED) :
    cbCall cfg name cb now (.ok v) = ⟨.ok v, true, cbOnSuccess cfg cb⟩ := by
  simp [cbCall, cbAdmit, h]

theorem cbCall_halfopen_ok {α : Type} (cfg : CircuitBreakerConfig) (name : List Char)
    (cb : CircuitBreaker) (now : ℚ) (v : α) (h : cb.state = .HALF_OPEN)
    (hsc : cb.success_count < cfg.half_open_max_calls) :
    cbCall cfg name cb now (.ok v) = ⟨.ok v, true, cbOnSuccess cfg cb⟩ := by
  have hnot : ¬ (cfg.half_open_max_calls ≤ cb.success_count) := by omega
  simp [cbCall, cbAdmit, h, hnot]

theorem cbCall_halfopen_fail {α : Type} (cfg : CircuitBreakerConfig) (name : List Char)
    (cb : CircuitBreaker) (now : ℚ) (e : PyErr) (h : cb.state = .HALF_OPEN)
    (hsc : cb.success_count < cfg.half_open_max_calls) :
    cbCall (α := α) cfg name cb now (.fail e) = ⟨.error e, true, cbOnFailure cfg cb now⟩ := by
  have hnot : ¬ (cfg.half_open_max_calls ≤ cb.success_count) := by omega
  simp [cbCall, cbAdmit, h, hnot]

theorem cbCall_reject {α : Type} (cfg : CircuitBreakerConfig) (name : List Char)
    (cb : CircuitBreaker) (now : ℚ) (res : StepResult α)
    (h : (cb.state = .OPEN ∧ now - cb.last_failure_time < cfg.timeout) ∨
         (cb.state = .HALF_OPEN ∧ cfg.half_open_max_calls ≤ cb.success_count)) :
    cbCall cfg name cb now res = ⟨.error (rejectionError name cb.state), false, cb⟩ := by
  rcases h with ⟨h1, h2⟩ | ⟨h1, h2⟩ <;> simp [cbCall, cbAdmit, h1, h2]

theorem cbOnFailure_closed_stay (cfg : CircuitBreakerConfig) (cb : CircuitBreaker) (now : ℚ)
    (h : cb.state = .CLOSED) (hlt : cb.failure_count + 1 < cfg.failure_threshold) :
    cbOnFailure cfg cb now =
      { cb with failure_count := cb.failure_count + 1, last_failure_time := now } := by
  have hnot : ¬ (cfg.failure_threshold ≤ cb.failure_count + 1) := by omega
  simp [cbOnFailure, h, hnot]

theorem cbOnFailure_closed_open (cfg : CircuitBreakerConfig) (cb : CircuitBreaker) (now : ℚ)
    (h : cb.state = .CLOSED) (hge : cfg.failure_threshold ≤ cb.failure_count + 1) :
    cbOnFailure cfg cb now =
      { state := .OPEN, failure_count := cb.failure_count + 1, last_failure_time := now,
        success_count := cb.success_count } := by
  simp [cbOnFailure, h, hge]

theorem runFailures_opens (cfg : CircuitBreakerConfig) (name : List Char) :
    ∀ (steps : List (ℚ × PyErr)) (cb : CircuitBreaker), cb.state = .CLOSED →
      cb.failure_count + steps.length = cfg.failure_threshold → steps ≠ [] →
      (runFailures cfg name cb steps).state = .OPEN ∧
      (runFailures cfg name cb steps).failure_count = cfg.failure_threshold := by
  intro steps
  induction steps with
  | nil => intro cb _ _ h3; exact absurd rfl h3
  | cons p rest ih =>
    intro cb hs hlen _
    have hstep : runFailures cfg name cb (p :: rest) =
        runFailures cfg name (cbOnFailure cfg cb p.1) rest := by
      simp [runFailures, cbCall_closed_fail cfg name cb p.1 p.2 hs]
    rw [hstep]
    cases rest with
    | nil =>
      have hge : cfg.failure_threshold ≤ cb.failure_count + 1 := by
        simp at hlen; omega
      rw [runFailures, List.foldl_nil, cbOnFailure_closed_open cfg cb p.1 hs hge]
      simp at hlen ⊢; omega
    | cons q rest2 =>
      have hlt : cb.failure_count + 1 < cfg.failure_threshold := by
        simp at hlen; omega
      rw [cbOnFailure_closed_stay cfg cb p.1 hs hlt]
      apply ih
      · exact hs
      · simp at hlen ⊢; omega
      · simp

theorem runProbes_closes {α : Type} (cfg : CircuitBreakerConfig) (name : List Char) :
    ∀ (steps : List (ℚ × α)) (cb : CircuitBreaker), cb.state = .HALF_OPEN →
      cb.success_count + steps.length = cfg.half_open_max_calls → steps ≠ [] →
      (runProbes cfg name cb steps).state = .CLOSED ∧
      (runProbes cfg name cb steps).failure_count = 0 ∧
      (runProbes cfg name cb steps).success_count = cfg.half_open_max_calls := by
  intro steps
  induction steps with
  | nil => intro cb _ _ h3; exact absurd rfl h3
  | cons p rest ih =>
    intro cb hs hlen _
    have hsc : cb.success_count < cfg.half_open_max_calls := by
      simp at hlen; omega
    have hstep : runProbes cfg name cb (p :: rest) =
        runProbes cfg name (cbOnSuccess cfg cb) rest := by
      simp [runProbes, cbCall_halfopen_ok cfg name cb p.1 p.2 hs hsc]
    rw [hstep]
    cases rest with
    | nil =>
      have hge : cfg.half_open_max_calls ≤ cb.success_count + 1 := by
        simp at hlen; omega
      rw [runProbes, List.foldl_nil]
      simp [cbOnSuccess, hs, hge]
      simp at hlen; omega
    | cons q rest2 =>
      have hlt : cb.success_count + 1 < cfg.half_open_max_calls := by
        simp at hlen; omega
      have hcs : cbOnSuccess cfg cb = { cb with success_count := cb.success_count + 1 } := by
        have hnot : ¬ (cfg.half_open_max_calls ≤ cb.success_count + 1) := by omega
        simp [cbOnSuccess, hs, hnot]
      rw [hcs]
      apply ih
      · exact hs
      · simp at hlen ⊢; omega
      · simp

/-- C5: from a Closed breaker with failure_count 0, a run of exactly
failure_threshold consecutive failed calls leaves the breaker Open, and any
call arriving before open_timeout has elapsed since last_failure_time is
rejected without invoking the underlying operation. -/
theorem cb_opens_after_threshold {α : Type} (cfg : CircuitBreakerConfig) (name : List Char)
    (cb0 : CircuitBreaker) (steps : List (ℚ × PyErr)) (t : ℚ) (res : StepResult α)
    (h1 : cb0.state = .CLOSED) (h2 : cb0.failure_count = 0)
    (h3 : 1 ≤ cfg.failure_threshold) (h4 : steps.length = cfg.failure_threshold)
    (h5 : t - (runFailures cfg name cb0 steps).last_failure_time < cfg.timeout) :
    (runFailures cfg name cb0 steps).state = .OPEN ∧
    (cbCall cfg name (runFailures cfg name cb0 steps) t res).invoked = false ∧
    (cbCall cfg name (runFailures cfg name cb0 steps) t res).result =
      .error (rejectionError name .OPEN) := by
  have hne : steps ≠ [] := by
    intro hnil; rw [hnil] at h4; simp at h4; omega
  have hopen := runFailures_opens cfg name steps cb0 h1 (by omega) hne
  have hrej := cbCall_reject cfg name (runFailures cfg name cb0 steps) t res
    (Or.inl ⟨hopen.1, h5⟩)
  rw [hrej]
  exact ⟨hopen.1, rfl, by rw [hopen.1]⟩

/-- Witness for C5 at a concrete breaker configuration and run. -/
theorem cb_opens_after_threshold_witness :
    (runFailures ⟨3, 30, 300, 3⟩ ("db".data) {} [(1, oddError), (2, oddError), (3, oddError)]).state
      = .OPEN ∧
    (cbCall ⟨3, 30, 300, 3⟩ ("db".data)
      (runFailures ⟨3, 30, 300, 3⟩ ("db".data) {} [(1, oddError), (2, oddError), (3, oddError)])
      10 (.ok ())).invoked = false ∧
    (cbCall ⟨3, 30, 300, 3⟩ ("db".data)
      (runFailures ⟨3, 30, 300, 3⟩ ("db".data) {} [(1, oddError), (2, oddError), (3, oddError)])
      10 (.ok ())).result = .error (rejectionError ("db".data) .OPEN) :=
  cb_opens_after_threshold ⟨3, 30, 300, 3⟩ ("db".data) {}
    [(1, oddError), (2, oddError), (3, oddError)] 10 (.ok ())
    rfl rfl (by decide) (by decide) (by with_unfolding_all decide)

/-- C6: an Open breaker whose open_timeout has elapsed admits the next call
and moves to Half-Open with the probe success counter reset to 0;
half_open_max_calls consecutive successful probes close it with
failure_count reset to 0; a single failure while Half-Open (within the probe
budget) reopens it and updates last_failure_time. -/
theorem cb_recovery_cycle {α : Type} (cfg : CircuitBreakerConfig) (name : List Char)
    (res : StepResult α) (probes : List (ℚ × α)) (e : PyErr)
    (cb1 cb2 cb3 : CircuitBreaker) (now1 now3 : ℚ)
    (h1s : cb1.state = .OPEN) (h1t : cfg.timeout ≤ now1 - cb1.last_failure_time)
    (h2s : cb2.state = .HALF_OPEN) (h2c : cb2.success_count = 0)
    (h2n : 1 ≤ cfg.half_open_max_calls) (h2l : probes.length = cfg.half_open_max_calls)
    (h3s : cb3.state = .HALF_OPEN) (h3c : cb3.success_count < cfg.half_open_max_calls) :
    ((cbCall cfg name cb1 now1 res).invoked = true ∧
      (cbAdmit cfg cb1 now1).2 = { cb1 with state := .HALF_OPEN, success_count := 0 }) ∧
    ((runProbes cfg name cb2 probes).state = .CLOSED ∧
      (runProbes cfg name cb2 probes).failure_count = 0) ∧
    ((cbCall (α := α) cfg name cb3 now3 (.fail e)).cb.state = .OPEN ∧
      (cbCall (α := α) cfg name cb3 now3 (.fail e)).cb.last_failure_time = now3 ∧
      (cbCall (α := α) cfg name cb3 now3 (.fail e)).invoked = true) := by
  have hno : ¬ (now1 - cb1.last_failure_time < cfg.timeout) := not_lt.mpr h1t
  have hne : probes ≠ [] := by
    intro hnil; rw [hnil] at h2l; simp at h2l; omega
  have hcl := runProbes_closes cfg name probes cb2 h2s (by omega) hne
  have hf3 := cbCall_halfopen_fail (α := α) cfg name cb3 now3 e h3s h3c
  refine ⟨⟨?_, ?_⟩, ⟨hcl.1, hcl.2.1⟩, ?_⟩
  · cases res <;> simp [cbCall, cbAdmit, h1s, hno]
  · simp [cbAdmit, h1s, hno]
  · rw [hf3]
    have : (cbOnFailure cfg cb3 now3).state = .OPEN ∧
        (cbOnFailure cfg cb3 now3).last_failure_time = now3 := by
      simp [cbOnFailure, h3s]
    exact ⟨this.1, this.2, rfl⟩

/-- Witness for C6 at a concrete breaker configuration. -/
theorem cb_recovery_cycle_witness :
    ((cbCall ⟨3, 30, 300, 2⟩ ("db".data) openCB 41 (.ok ())).invoked = true ∧
      (cbAdmit ⟨3, 30, 300, 2⟩ openCB 41).2 =
        { openCB with state := .HALF_OPEN, success_count := 0 }) ∧
    ((runProbes ⟨3, 30, 300, 2⟩ ("db".data)
        { state := .HALF_OPEN, failure_count := 5, last_failure_time := 10, success_count := 0 }
        [(42, ()), (43, ())]).state = .CLOSED ∧
      (runProbes ⟨3, 30, 300, 2⟩ ("db".data)
        { state := .HALF_OPEN, failure_count := 5, last_failure_time := 10, success_count := 0 }
        [(42, ()), (43, ())]).failure_count = 0) ∧
    ((cbCall (α := Unit) ⟨3, 30, 300, 2⟩ ("db".data)
        { state := .HALF_OPEN, failure_count := 5, last_failure_time := 10, success_count := 1 }
        44 (.fail oddError)).cb.state = .OPEN ∧
      (cbCall (α := Unit) ⟨3, 30, 300, 2⟩ ("db".data)
        { state := .HALF_OPEN, failure_count := 5, last_failure_time := 10, success_count := 1 }
        44 (.fail oddError)).cb.last_failure_time = 44 ∧
      (cbCall (α := Unit) ⟨3, 30, 300, 2⟩ ("db".data)
        { state := .HALF_OPEN, failure_count := 5, last_failure_time := 10, success_count := 1 }
        44 (.fail oddError)).invoked = true) :=
  cb_recovery_cycle ⟨3, 30, 300, 2⟩ ("db".data) (.ok ()) [(42, ()), (43, ())] oddError
    openCB
    { state := .HALF_OPEN, failure_count := 5, last_failure_time := 10, success_count := 0 }
    { state := .HALF_OPEN, failure_count := 5, last_failure_time := 10, success_count := 1 }
    41 44 rfl (by with_unfolding_all decide) rfl rfl (by decide) (by decide) rfl (by decide)

/-- C10: a rejected call (Open within the timeout, or Half-Open with the
probe budget used up) leaves every observable breaker field unchanged. -/
theorem cb_rejection_frame {α : Type} (cfg : CircuitBreakerConfig) (name : List Char)
    (cb : CircuitBreaker) (now : ℚ) (res : StepResult α)
    (h : (cb.state = .OPEN ∧ now - cb.last_failure_time < cfg.timeout) ∨
         (cb.state = .HALF_OPEN ∧ cfg.half_open_max_calls ≤ cb.success_count)) :
    (cbCall cfg name cb now res).invoked = false ∧
    (cbCall cfg name cb now res).cb = cb := by
  rw [cbCall_reject cfg name cb now res h]
  exact ⟨rfl, rfl⟩

/-- Witness for C10: a rejected call on an Open breaker changes nothing. -/
theorem cb_rejection_frame_witness :
    (cbCall defaultCBConfig ("embedder".data) openCB 20 (.ok ())).invoked = false ∧
    (cbCall defaultCBConfig ("embedder".data) openCB 20 (.ok ())).cb = openCB :=
  cb_rejection_frame defaultCBConfig ("embedder".data) openCB 20 (.ok ())
    (Or.inl ⟨rfl, by with_unfolding_all decide⟩)

/-- C9: categorize_error evaluates the keyword groups in the fixed priority
order (network, timeout, rate_limit, auth, server_error, client_error,
embedding, database) against the lower-cased message, first match winning; a
message with both a network term and a timeout term is NETWORK; and when no
keyword group (including the type-name groups) matches, the result is
UNKNOWN. -/
theorem categorize_priority_order (e : PyErr) :
    categorize_error e = categorizeSpec e ∧
    (hasSub ("connection".data) (lowerL e.msg) = true →
      hasSub ("timeout".data) (lowerL e.msg) = true → categorize_error e = .NETWORK) ∧
    ((∀ g ∈ keywordTable, containsAny (lowerL e.msg) g.1 = false) →
      hasSub ("httpx".data) (lowerL e.tyName) = false →
      hasSub ("aiohttp".data) (lowerL e.tyName) = false →
      categorize_error e = .UNKNOWN) := by
  refine ⟨?_, ?_, ?_⟩
  · simp only [categorize_error, categorizeSpec, keywordTable, firstMatch]
    split_ifs <;> rfl
  · intro h1 _
    have hn : containsAny (lowerL e.msg) networkTerms = true := by
      simp [containsAny, networkTerms, h1]
    simp [categorize_error, hn]
  · intro hall h1 h2
    have g1 : containsAny (lowerL e.msg) networkTerms = false :=
      hall (networkTerms, .NETWORK) (by simp [keywordTable])
    have g2 : containsAny (lowerL e.msg) timeoutTerms = false :=
      hall (timeoutTerms, .TIMEOUT) (by simp [keywordTable])
    have g3 : containsAny (lowerL e.msg) rateLimitTerms = false :=
      hall (rateLimitTerms, .RATE_LIMIT) (by simp [keywordTable])
    have g4 : containsAny (lowerL e.msg) authTerms = false :=
      hall (authTerms, .AUTH) (by simp [keywordTable])
    have g5 : containsAny (lowerL e.msg) serverErrorTerms = false :=
      hall (serverErrorTerms, .SERVER_ERROR) (by simp [keywordTable])
    have g6 : containsAny (lowerL e.msg) clientErrorTerms = false :=
      hall (clientErrorTerms, .CLIENT_ERROR) (by simp [keywordTable])
    have g7 : containsAny (lowerL e.msg) embeddingTerms = false :=
      hall (embeddingTerms, .EMBEDDING) (by simp [keywordTable])
    have g8 : containsAny (lowerL e.msg) databaseTerms = false :=
      hall (databaseTerms, .DATABASE) (by simp [keywordTable])
    simp [categorize_error, g1, g2, g3, g4, g5, g6, g7, g8, h1, h2]

/-- Witness for C9: concrete classifications, including a message holding
both a network and a timeout keyword, and an unmatched message. -/
theorem categorize_priority_order_witness :
    categorize_error netError = categorizeSpec netError ∧
    categorize_error { msg := ("connection timeout".data), tyName := ("Exception".data) }
      = .NETWORK ∧
    categorize_error oddError = .UNKNOWN :=
  ⟨(categorize_priority_order netError).1,
   (categorize_priority_order
      { msg := ("connection timeout".data), tyName := ("Exception".data) }).2.1
      (by decide) (by decide),
   (categorize_priority_order oddError).2.2
     (by intro g hg; simp [keywordTable] at hg
         rcases hg with h | h | h | h | h | h | h | h <;> subst h <;> decide)
     (by decide) (by decide)⟩

theorem lookup_mem_values {β : Type} {c : ErrorCategory} {v : β} :
    ∀ {l : List (ErrorCategory × β)}, List.lookup c l = some v → ∃ k, (k, v) ∈ l := by
  intro l
  induction l with
  | nil => intro h; simp [List.lookup] at h
  | cons p rest ih =>
    intro h
    obtain ⟨k, b⟩ := p
    cases hck : (c == k) with
    | true =>
      rw [List.lookup, hck] at h
      exact ⟨k, by simp at h; simp [h]⟩
    | false =>
      rw [List.lookup, hck] at h
      obtain ⟨k2, hk2⟩ := ih h
      exact ⟨k2, by simp [hk2]⟩

theorem effBase_nonneg (cfg : RetryConfig) (c : ErrorCategory) (hinv : policyInv cfg) :
    0 ≤ effBase cfg c := by
  unfold effBase
  split
  · exact hinv.1
  · cases hl : List.lookup c cfg.category_delays with
    | none => exact hinv.1
    | some v =>
      obtain ⟨k, hk⟩ := lookup_mem_values hl
      exact hinv.2.2.2.1 (k, v) hk

theorem rawDelay_nonneg (attempt : ℕ) (cfg : RetryConfig) (c : ErrorCategory)
    (hinv : policyInv cfg) (hm : 0 ≤ cfg.backoff_multiplier) :
    0 ≤ rawDelay attempt cfg c :=
  le_min (mul_nonneg (effBase_nonneg cfg c hinv) (pow_nonneg hm attempt)) hinv.2.1

theorem rawDelay_mono (cfg : RetryConfig) (c : ErrorCategory) {a b : ℕ}
    (hinv : policyInv cfg) (hm : 1 ≤ cfg.backoff_multiplier) (hab : a ≤ b) :
    rawDelay a cfg c ≤ rawDelay b cfg c :=
  min_le_min
    (mul_le_mul_of_nonneg_left (pow_le_pow_right₀ hm hab) (effBase_nonneg cfg c hinv))
    le_rfl

/-- C7 counterexample: a policy whose delay fields all satisfy the stated
invariant but whose backoff multiplier is negative makes calculate_delay
return a negative delay, refuting the claimed nonnegativity. -/
theorem calculate_delay_negative_example :
    policyInv cfgNegMult ∧ calculate_delay 1 cfgNegMult .UNKNOWN 0 < 0 := by
  with_unfolding_all decide

/-- C7 amended: calculate_delay follows the stated algorithm (category base
override, exponential growth capped at max_delay, jitter applied with a 0.1s
floor exactly when jitter is enabled and the raw delay is positive), and the
result is nonnegative under the policy invariant strengthened with a
nonnegative backoff multiplier. -/
theorem calculate_delay_formula_nonneg (attempt : ℕ) (cfg : RetryConfig)
    (c : ErrorCategory) (j : ℚ) (hinv : policyInv cfg) (hm : 0 ≤ cfg.backoff_multiplier) :
    0 ≤ calculate_delay attempt cfg c j ∧
    rawDelay attempt cfg c = min (effBase cfg c * cfg.backoff_multiplier ^ attempt) cfg.max_delay ∧
    (cfg.jitter = true → 0 < rawDelay attempt cfg c →
      calculate_delay attempt cfg c j =
        max (1/10) (rawDelay attempt cfg c + rawDelay attempt cfg c * cfg.jitter_range * j)) ∧
    (cfg.jitter = false ∨ rawDelay attempt cfg c ≤ 0 →
      calculate_delay attempt cfg c j = rawDelay attempt cfg c) := by
  refine ⟨?_, rfl, ?_, ?_⟩
  · simp only [calculate_delay]
    split
    · exact le_trans (by norm_num) (le_max_left _ _)
    · exact rawDelay_nonneg attempt cfg c hinv hm
  · intro hj hpos
    unfold calculate_delay
    rw [if_pos ⟨hj, hpos⟩]
  · intro h
    unfold calculate_delay
    rw [if_neg]
    rcases h with h | h
    · intro hc; rw [h] at hc; exact Bool.false_ne_true hc.1
    · intro hc; exact absurd hc.2 (not_lt.mpr h)

/-- Witness for C7 at attempt 0 of the default policy. -/
theorem calculate_delay_formula_nonneg_witness :
    0 ≤ calculate_delay 0 defaultRetryConfig .NETWORK 0 ∧
    calculate_delay 0 defaultRetryConfig .NETWORK 0 =
      max (1/10) (rawDelay 0 defaultRetryConfig .NETWORK +
        rawDelay 0 defaultRetryConfig .NETWORK * defaultRetryConfig.jitter_range * 0) :=
  ⟨(calculate_delay_formula_nonneg 0 defaultRetryConfig .NETWORK 0
      (by with_unfolding_all decide) (by with_unfolding_all decide)).1,
   (calculate_delay_formula_nonneg 0 defaultRetryConfig .NETWORK 0
      (by with_unfolding_all decide) (by with_unfolding_all decide)).2.2.1
      rfl (by with_unfolding_all decide)⟩

/-- C8 counterexample: three policies satisfying the stated invariant refute
the claim as written: with multiplier one half the delay strictly decreases
in the attempt index; with jitter enabled at the max_delay cap an earlier
attempt can draw a larger jittered delay than a later one; and with
multiplier zero the returned delay is 0 < 0.1 although jitter is enabled and
the category base delay is nonzero. -/
theorem calculate_delay_monotonicity_fails :
    (policyInv cfgHalf ∧
      calculate_delay 1 cfgHalf .UNKNOWN 0 < calculate_delay 0 cfgHalf .UNKNOWN 0) ∧
    (policyInv cfgCap ∧
      calculate_delay 1 cfgCap .UNKNOWN (-1) < calculate_delay 0 cfgCap .UNKNOWN 1) ∧
    (policyInv cfgZeroMult ∧ cfgZeroMult.jitter = true ∧
      effBase cfgZeroMult .UNKNOWN ≠ 0 ∧
      calculate_delay 1 cfgZeroMult .UNKNOWN 0 < 1/10) := by
  with_unfolding_all decide

/-- C8 amended: under the policy invariant with backoff multiplier at least
one, the jitter-free delay is monotonically non-decreasing in the attempt
index and never exceeds max_delay; and whenever jitter is enabled and the
capped pre-jitter delay is positive, the returned delay is at least 0.1. -/
theorem calculate_delay_monotone (cfg : RetryConfig) (c : ErrorCategory) (a b : ℕ)
    (j j2 : ℚ) (hinv : policyInv cfg) (hm : 1 ≤ cfg.backoff_multiplier) (hab : a ≤ b) :
    (cfg.jitter = false →
      calculate_delay a cfg c j ≤ calculate_delay b cfg c j2 ∧
      calculate_delay a cfg c j ≤ cfg.max_delay) ∧
    (cfg.jitter = true → 0 < rawDelay a cfg c → 1/10 ≤ calculate_delay a cfg c j) := by
  constructor
  · intro hnj
    have ha : calculate_delay a cfg c j = rawDelay a cfg c := by
      unfold calculate_delay
      rw [if_neg]
      intro hc; rw [hnj] at hc; exact Bool.false_ne_true hc.1
    have hb : calculate_delay b cfg c j2 = rawDelay b cfg c := by
      unfold calculate_delay
      rw [if_neg]
      intro hc; rw [hnj] at hc; exact Bool.false_ne_true hc.1
    rw [ha, hb]
    exact ⟨rawDelay_mono cfg c hinv hm hab, min_le_right _ _⟩
  · intro hj hpos
    unfold calculate_delay
    rw [if_pos ⟨hj, hpos⟩]
    exact le_max_left _ _

/-- Witness for C8: the jitter-free default policy is monotone between
attempts 1 and 2, and the default jittered policy stays above the 0.1 floor. -/
theorem calculate_delay_monotone_witness :
    (calculate_delay 1 cfgNoJit .NETWORK 0 ≤ calculate_delay 2 cfgNoJit .NETWORK 0 ∧
      calculate_delay 1 cfgNoJit .NETWORK 0 ≤ cfgNoJit.max_delay) ∧
    1/10 ≤ calculate_delay 1 defaultRetryConfig .NETWORK 0 :=
  ⟨(calculate_delay_monotone cfgNoJit .NETWORK 1 2 0 0
      (by with_unfolding_all decide) (by with_unfolding_all decide) (by decide)).1 rfl,
   (calculate_delay_monotone defaultRetryConfig .NETWORK 1 2 0 0
      (by with_unfolding_all decide) (by with_unfolding_all decide) (by decide)).2
      rfl (by with_unfolding_all decide)⟩

theorem retryAux_allFail_break {α : Type} (cfg : RetryConfig) (ops : ℕ → StepResult α)
    (js : ℕ → ℚ) (es : ℕ → PyErr) (c : ErrorCategory)
    (hops : ∀ i, ops i = .fail (es i)) (hcat : ∀ i, categorize_error (es i) = c)
    (hbM : effectiveRetries cfg c ≤ cfg.max_retries) :
    ∀ (fuel attempt : ℕ) (lastErr : Option PyErr) (cat : ErrorCategory)
      (sleeps : List ℚ) (inv : ℕ),
      attempt + fuel = cfg.max_retries + 1 → attempt ≤ effectiveRetries cfg c →
      (retryAux cfg ops js fuel attempt lastErr cat sleeps inv).result =
        .error ⟨c, some (es (effectiveRetries cfg c)), cfg.max_retries⟩ ∧
      (retryAux cfg ops js fuel attempt lastErr cat sleeps inv).invocations =
        inv + (effectiveRetries cfg c - attempt) + 1 ∧
      (retryAux cfg ops js fuel attempt lastErr cat sleeps inv).recSuccess = false ∧
      (retryAux cfg ops js fuel attempt lastErr cat sleeps inv).recRetries = cfg.max_retries := by
  intro fuel
  induction fuel with
  | zero => intro attempt _ _ _ _ hfa hb; omega
  | succ f ih =>
    intro attempt lastErr cat sleeps inv hfa hb
    by_cases hba : effectiveRetries cfg c ≤ attempt
    · have hae : attempt = effectiveRetries cfg c := le_antisymm hb hba
      simp only [retryAux, hops attempt, hcat attempt, if_pos hba]
      subst hae
      refine ⟨rfl, by omega, ?_, ?_⟩ <;> first | rfl | trivial
    · simp only [retryAux, hops attempt, hcat attempt, if_neg hba]
      have h2 := ih (attempt + 1) (some (es attempt)) c
        (if 0 < calculate_delay attempt cfg c (js attempt)
          then calculate_delay attempt cfg c (js attempt) :: sleeps else sleeps)
        (inv + 1) (by omega) (by omega)
      exact ⟨h2.1, by rw [h2.2.1]; omega, h2.2.2⟩

theorem retryAux_allFail_exhaust {α : Type} (cfg : RetryConfig) (ops : ℕ → StepResult α)
    (js : ℕ → ℚ) (es : ℕ → PyErr) (c : ErrorCategory)
    (hops : ∀ i, ops i = .fail (es i)) (hcat : ∀ i, categorize_error (es i) = c)
    (hbM : cfg.max_retries < effectiveRetries cfg c) :
    ∀ (fuel attempt : ℕ) (lastErr : Option PyErr) (cat : ErrorCategory)
      (sleeps : List ℚ) (inv : ℕ),
      attempt + fuel = cfg.max_retries + 1 →
      (fuel = 0 → cat = c ∧ lastErr = some (es cfg.max_retries)) →
      (retryAux cfg ops js fuel attempt lastErr cat sleeps inv).result =
        .error ⟨c, some (es cfg.max_retries), cfg.max_retries⟩ ∧
      (retryAux cfg ops js fuel attempt lastErr cat sleeps inv).invocations = inv + fuel ∧
      (retryAux cfg ops js fuel attempt lastErr cat sleeps inv).recSuccess = false ∧
      (retryAux cfg ops js fuel attempt lastErr cat sleeps inv).recRetries = cfg.max_retries := by
  intro fuel
  induction fuel with
  | zero =>
    intro attempt lastErr cat sleeps inv _ h0
    obtain ⟨hc, hl⟩ := h0 rfl
    subst hc; subst hl
    exact ⟨rfl, rfl, rfl, rfl⟩
  | succ f ih =>
    intro attempt lastErr cat sleeps inv hfa _
    have hba : ¬ (effectiveRetries cfg c ≤ attempt) := by omega
    simp only [retryAux, hops attempt, hcat attempt, if_neg hba]
    have h2 := ih (attempt + 1) (some (es attempt)) c
      (if 0 < calculate_delay attempt cfg c (js attempt)
        then calculate_delay attempt cfg c (js attempt) :: sleeps else sleeps)
      (inv + 1) (by omega)
      (by intro hf0; subst hf0
          have : attempt = cfg.max_retries := by omega
          exact ⟨rfl, by rw [this]⟩)
    exact ⟨h2.1, by rw [h2.2.1]; omega, h2.2.2⟩

/-- C2 counterexample: with max_retries = 1 and the default NETWORK override
of 5 category retries, a persistently failing network operation is invoked
only twice — the loop bound range(max_retries + 1) caps the budget — not the
six times the claim (retry until the attempt index reaches the category
budget) would require. -/
theorem retry_budget_cap_counterexample :
    effectiveRetries cfgC2 .NETWORK = 5 ∧
    (retry_with_backoff (α := Unit) cfgC2 (fun _ => .fail netError) js0).invocations = 2 ∧
    (retry_with_backoff (α := Unit) cfgC2 (fun _ => .fail netError) js0).invocations ≠
      effectiveRetries cfgC2 .NETWORK + 1 := by
  with_unfolding_all decide

/-- C2 amended: when every attempt fails with category c, the effective
budget is min(retries_by_category[c], max_retries): the operation is invoked
exactly min(budget, max_retries) + 1 times and then a terminal error is
raised wrapping the last underlying error and carrying its category (and
reporting max_retries in its message); a category override larger than
max_retries is capped by the loop bound. -/
theorem retry_all_fail_budget {α : Type} (cfg : RetryConfig) (ops : ℕ → StepResult α)
    (js : ℕ → ℚ) (es : ℕ → PyErr) (c : ErrorCategory)
    (hops : ∀ i, ops i = .fail (es i)) (hcat : ∀ i, categorize_error (es i) = c) :
    (retry_with_backoff cfg ops js).result =
      .error ⟨c, some (es (min (effectiveRetries cfg c) cfg.max_retries)),
              cfg.max_retries⟩ ∧
    (retry_with_backoff cfg ops js).invocations =
      min (effectiveRetries cfg c) cfg.max_retries + 1 ∧
    (retry_with_backoff cfg ops js).recSuccess = false ∧
    (retry_with_backoff cfg ops js).recRetries = cfg.max_retries := by
  unfold retry_with_backoff
  rcases le_or_lt (effectiveRetries cfg c) cfg.max_retries with hle | hlt
  · have h := retryAux_allFail_break cfg ops js es c hops hcat hle
      (cfg.max_retries + 1) 0 none .UNKNOWN [] 0 (by omega) (by omega)
    rw [min_eq_left hle]
    exact ⟨h.1, by rw [h.2.1]; omega, h.2.2⟩
  · have h := retryAux_allFail_exhaust cfg ops js es c hops hcat hlt
      (cfg.max_retries + 1) 0 none .UNKNOWN [] 0 (by omega) (by omega)
    rw [min_eq_right (le_of_lt hlt)]
    exact ⟨h.1, by rw [h.2.1]; omega, h.2.2⟩

/-- Witness for C2 (amended) on the capped-override configuration. -/
theorem retry_all_fail_budget_witness :
    (retry_with_backoff (α := Unit) cfgC2 (fun _ => .fail netError) js0).result =
      .error ⟨.NETWORK, some netError, cfgC2.max_retries⟩ ∧
    (retry_with_backoff (α := Unit) cfgC2 (fun _ => .fail netError) js0).invocations =
      min (effectiveRetries cfgC2 .NETWORK) cfgC2.max_retries + 1 ∧
    (retry_with_backoff (α := Unit) cfgC2 (fun _ => .fail netError) js0).recRetries =
      cfgC2.max_retries := by
  have h := retry_all_fail_budget (α := Unit) cfgC2 (fun _ => .fail netError) js0
    (fun _ => netError) .NETWORK (fun _ => rfl)
    (fun _ => (by decide : categorize_error netError = .NETWORK))
  exact ⟨h.1, h.2.1, h.2.2.2⟩

/-- C4: with a policy mapping the error category of the first failure to a
zero retry budget (as the defaults do for auth and client_error), the
executor raises the terminal error after the first failure: exactly one
invocation and no sleeps. -/
theorem zero_budget_first_failure {α : Type} (cfg : RetryConfig) (ops : ℕ → StepResult α)
    (js : ℕ → ℚ) (e : PyErr) (h0 : ops 0 = .fail e)
    (hac : categorize_error e = .AUTH ∨ categorize_error e = .CLIENT_ERROR)
    (hbud : effectiveRetries cfg (categorize_error e) = 0) :
    (retry_with_backoff cfg ops js).result =
      .error ⟨categorize_error e, some e, cfg.max_retries⟩ ∧
    (retry_with_backoff cfg ops js).invocations = 1 ∧
    (retry_with_backoff cfg ops js).sleeps = [] := by
  unfold retry_with_backoff
  simp only [retryAux, h0, hbud]
  simp

/-- Witness for C4: a 401 Unauthorized failure under the default policy. -/
theorem zero_budget_first_failure_witness :
    (retry_with_backoff (α := Unit) defaultRetryConfig (fun _ => .fail authError) js0).result =
      .error ⟨categorize_error authError, some authError, defaultRetryConfig.max_retries⟩ ∧
    (retry_with_backoff (α := Unit) defaultRetryConfig (fun _ => .fail authError) js0).invocations
      = 1 ∧
    (retry_with_backoff (α := Unit) defaultRetryConfig (fun _ => .fail authError) js0).sleeps
      = [] :=
  zero_budget_first_failure defaultRetryConfig (fun _ => .fail authError) js0 authError
    rfl (Or.inl (by decide)) (by decide)

theorem record_call_counts (m : RetryMetrics) (s : Bool) (k : ℕ) (rt : ℚ)
    (c : Option ErrorCategory) :
    (m.record_call s k rt c).total_calls = m.total_calls + 1 ∧
    (m.record_call s k rt c).success_count = m.success_count + (if s then 1 else 0) ∧
    (m.record_call s k rt c).failure_count = m.failure_count + (if s then 0 else 1) := by
  unfold RetryMetrics.record_call
  cases c <;> cases s <;> simp <;> split <;> simp

theorem metrics_fold {α : Type} (rtf : RunResult α → ℚ) :
    ∀ (rs : List (RunResult α)) (m0 : RetryMetrics),
      (rs.foldl (fun m r => applyRun m r (rtf r)) m0).total_calls =
        m0.total_calls + rs.length ∧
      (rs.foldl (fun m r => applyRun m r (rtf r)) m0).success_count =
        m0.success_count + rs.countP (fun r => r.recSuccess) ∧
      (rs.foldl (fun m r => applyRun m r (rtf r)) m0).failure_count =
        m0.failure_count + rs.countP (fun r => !r.recSuccess) := by
  intro rs
  induction rs with
  | nil => intro m0; simp
  | cons r rest ih =>
    intro m0
    have hstep := record_call_counts m0 r.recSuccess r.recRetries (rtf r) (some r.recCategory)
    have h := ih (applyRun m0 r (rtf r))
    simp only [List.foldl_cons, List.length_cons, List.countP_cons]
    refine ⟨?_, ?_, ?_⟩
    · rw [h.1]
      simp only [applyRun]
      rw [hstep.1]
      omega
    · rw [h.2.1]
      simp only [applyRun]
      rw [hstep.2.1]
      cases hr : r.recSuccess <;> simp [hr] <;> omega
    · rw [h.2.2]
      simp only [applyRun]
      rw [hstep.2.2]
      cases hr : r.recSuccess <;> simp [hr] <;> omega

theorem retryAux_record_consistent {α : Type} (cfg : RetryConfig) (ops : ℕ → StepResult α)
    (js : ℕ → ℚ) :
    ∀ (fuel attempt : ℕ) (lastErr : Option PyErr) (cat : ErrorCategory) (sleeps : List ℚ),
      ((retryAux cfg ops js fuel attempt lastErr cat sleeps attempt).recSuccess = true →
        (retryAux cfg ops js fuel attempt lastErr cat sleeps attempt).recRetries + 1 =
          (retryAux cfg ops js fuel attempt lastErr cat sleeps attempt).invocations) ∧
      ((retryAux cfg ops js fuel attempt lastErr cat sleeps attempt).recSuccess = false →
        (retryAux cfg ops js fuel attempt lastErr cat sleeps attempt).recRetries =
          cfg.max_retries) := by
  intro fuel
  induction fuel with
  | zero =>
    intro attempt lastErr cat sleeps
    exact ⟨fun h => by simp [retryAux] at h, fun _ => rfl⟩
  | succ f ih =>
    intro attempt lastErr cat sleeps
    cases hop : ops attempt with
    | ok a =>
      constructor
      · intro _
        simp only [retryAux, hop]
      · intro hfalse
        simp only [retryAux, hop] at hfalse
        exact Bool.noConfusion hfalse
    | fail e =>
      by_cases hba : effectiveRetries cfg (categorize_error e) ≤ attempt
      · constructor
        · intro htrue
          simp only [retryAux, hop, if_pos hba] at htrue
          exact Bool.noConfusion htrue
        · intro _
          simp only [retryAux, hop, if_pos hba]
      · have h2 := ih (attempt + 1) (some e) (categorize_error e)
          (if 0 < calculate_delay attempt cfg (categorize_error e) (js attempt)
            then calculate_delay attempt cfg (categorize_error e) (js attempt) :: sleeps
            else sleeps)
        constructor
        · intro htrue
          simp only [retryAux, hop, if_neg hba] at htrue ⊢
          exact h2.1 htrue
        · intro hfalse
          simp only [retryAux, hop, if_neg hba] at hfalse ⊢
          exact h2.2 hfalse

theorem get_summary_total (m : RetryMetrics) (h : m.response_times ≠ []) :
    ∃ s, m.get_summary = some s ∧ s.total_calls = m.total_calls := by
  unfold RetryMetrics.get_summary
  rw [if_neg h]
  exact ⟨_, rfl, rfl⟩

/-- C3 counterexample: a single call failing with a zero-budget auth error
performs one invocation (zero retries actually used) but the failure-path
record_call receives config.max_retries = 3 as its retry count, so the
recorded value is not the actual number of retries used. -/
theorem metrics_actual_retries_counterexample :
    (retry_with_backoff (α := Unit) defaultRetryConfig (fun _ => .fail authError) js0).invocations
      = 1 ∧
    (retry_with_backoff (α := Unit) defaultRetryConfig (fun _ => .fail authError) js0).recSuccess
      = false ∧
    (retry_with_backoff (α := Unit) defaultRetryConfig (fun _ => .fail authError) js0).recRetries
      = 3 ∧
    (retry_with_backoff (α := Unit) defaultRetryConfig (fun _ => .fail authError) js0).recRetries
      ≠ (retry_with_backoff (α := Unit) defaultRetryConfig (fun _ => .fail authError) js0).invocations - 1 := by
  with_unfolding_all decide

/-- C3 amended: every run issues exactly one record_call, carrying the success
flag and the elapsed time; the retries argument equals the actual attempt
index (invocations - 1) on success but is always config.max_retries on
failure; and folding the per-run records over the aggregator yields
total_calls = N + M, success_count = N and failure_count = M for N successes
among N + M recorded runs. -/
theorem metrics_once_roundtrip {α : Type} (rs : List (RunResult α)) (m0 : RetryMetrics)
    (rtf : RunResult α → ℚ) (cfg : RetryConfig) (ops : ℕ → StepResult α) (js : ℕ → ℚ)
    (m : RetryMetrics) :
    (rs.foldl (fun mm r => applyRun mm r (rtf r)) m0).total_calls =
      m0.total_calls + rs.length ∧
    (rs.foldl (fun mm r => applyRun mm r (rtf r)) m0).success_count =
      m0.success_count + rs.countP (fun r => r.recSuccess) ∧
    (rs.foldl (fun mm r => applyRun mm r (rtf r)) m0).failure_count =
      m0.failure_count + rs.countP (fun r => !r.recSuccess) ∧
    ((retry_with_backoff cfg ops js).recSuccess = true →
      (retry_with_backoff cfg ops js).recRetries + 1 =
        (retry_with_backoff cfg ops js).invocations) ∧
    ((retry_with_backoff cfg ops js).recSuccess = false →
      (retry_with_backoff cfg ops js).recRetries = cfg.max_retries) ∧
    (m.response_times ≠ [] → ∃ s, m.get_summary = some s ∧ s.total_calls = m.total_calls) := by
  have hf := metrics_fold rtf rs m0
  have hr := retryAux_record_consistent cfg ops js (cfg.max_retries + 1) 0 none .UNKNOWN []
  exact ⟨hf.1, hf.2.1, hf.2.2, hr.1, hr.2, get_summary_total m⟩

/-- Witness for C3 (amended): one successful and one exhausted-auth run
recorded against a fresh aggregator, plus the summary projection of an
aggregator holding one call. -/
theorem metrics_once_roundtrip_witness :
    twoCallMetrics.total_calls = 2 ∧
    twoCallMetrics.success_count = 1 ∧
    twoCallMetrics.failure_count = 1 ∧
    runAuthFail.recRetries = defaultRetryConfig.max_retries ∧
    (∃ s, oneCallMetrics.get_summary = some s ∧ s.total_calls = oneCallMetrics.total_calls) := by
  have h := metrics_once_roundtrip (α := Unit) [runOk, runAuthFail] {} (fun _ => (0 : ℚ))
    defaultRetryConfig (fun _ => .fail authError) js0 oneCallMetrics
  refine ⟨?_, ?_, ?_, ?_, h.2.2.2.2.2 (by with_unfolding_all decide)⟩
  · have := h.1
    rw [twoCallMetrics]
    rw [this]
    with_unfolding_all decide
  · have := h.2.1
    rw [twoCallMetrics, this]
    with_unfolding_all decide
  · have := h.2.2.1
    rw [twoCallMetrics, this]
    with_unfolding_all decide
  · exact h.2.2.2.2.1 (by with_unfolding_all decide)

/-- C1 (code behaviour at the failing input): the fast-fail error of an OPEN
breaker carries retryable = false, yet retry_with_backoff categorizes it as
UNKNOWN and retries it under the UNKNOWN budget of 2: with the breaker stuck
open (its call rejecting without invoking the operation and leaving the state
unchanged), the executor performs three breaker calls with two sleeps (2s and
4s) and then raises a generic exhausted error of category UNKNOWN rather
than surfacing the rejection immediately as a distinguishable circuit-open
condition. -/
theorem circuit_open_rejection_retried :
    categorize_error cbRejectErr = .UNKNOWN ∧
    cbRejectErr.retryable = false ∧
    (cbCall (α := Unit) defaultCBConfig ("embedder".data) openCB 10 (.ok ())).invoked = false ∧
    (cbCall (α := Unit) defaultCBConfig ("embedder".data) openCB 10 (.ok ())).result =
      .error cbRejectErr ∧
    (cbCall (α := Unit) defaultCBConfig ("embedder".data) openCB 10 (.ok ())).cb = openCB ∧
    effectiveRetries defaultRetryConfig .UNKNOWN = 2 ∧
    (retry_with_backoff (α := Unit) defaultRetryConfig (fun _ => .fail cbRejectErr) js0).invocations = 3 ∧
    (retry_with_backoff (α := Unit) defaultRetryConfig (fun _ => .fail cbRejectErr) js0).sleeps = [2, 4] ∧
    (retry_with_backoff (α := Unit) defaultRetryConfig (fun _ => .fail cbRejectErr) js0).result =
      .error ⟨.UNKNOWN, some cbRejectErr, 3⟩ := by
  refine ⟨by decide, rfl, ?_, ?_, ?_, by decide, ?_, ?_, ?_⟩
  · with_unfolding_all decide
  · with_unfolding_all rfl
  · with_unfolding_all rfl
  · with_unfolding_all decide
  · with_unfolding_all decide
  · with_unfolding_all rfl
